import Mathlib

/-!
Verification of the JRKBR robot-control program: a shallow embedding of its
motor protocol driver (`Roomba`), the per-frame color-classification cycle of
the `ColorDetector`, the `ColorSeeker` and `ColorTracker` tick controllers, the
`seekColor` HTTP-handler hand-off between controller instances, and the
`Start`/`Stop` lifecycle of the detector, together with theorems checking the
documented behaviour against these embeddings.

Modelling conventions:
* Go `int`/`int16` values are embedded as `Int`.  Where Go performs an
  arithmetic right shift (`>> 8` on an `int16`) the embedding uses `/` on
  `Int`, whose rounding (toward negative infinity for a positive divisor)
  agrees with the shift; where Go performs signed integer division (`/` on
  possibly negative operands) the embedding uses `Int.tdiv`, which truncates
  toward zero exactly as Go does.  `byte(x)` conversions become `% 256`
  (two's-complement truncation).
* `time.Time`/`time.Duration` values are embedded as `Int` nanosecond counts;
  the zero `time.Time` is `Option.none` where the code tests `IsZero`.
* `float64` contour areas and thresholds are embedded as exact `Int` values;
  the code only ever compares them with `>` / `≤`, so the ordering is all
  that matters.
* A Go runtime panic (division by zero, close of a closed channel) is
  embedded as `Option.none`.
-/

/-! ## Motor protocol driver (`lib/roomba`, `Roomba` serial driver) -/

namespace Roomba

/-- `StraightRadius int16 = 32767`: the magic turn radius for driving
straight. -/
def StraightRadius : Int := 32767

/-- Opcode `CmdDrive = 137` installed by `NewRoomba`. -/
def CmdDrive : Nat := 137

/-- Go's `byte(x)` conversion of a signed integer: truncation to the low
eight bits of the two's-complement representation, i.e. `x % 256` with a
non-negative result. -/
def toByte (x : Int) : Nat := (x % 256).toNat

/-- `Roomba.Drive(velocity, radius)`: the exact byte string the driver writes
to the serial port in one `Write` call.

Source:
```
command := []byte{
    r.Cmds.CmdDrive,
    byte(velocity >> 8),   // Velocity high byte
    byte(velocity & 0xFF), // Velocity low byte
    byte(radius >> 8),     // Radius high byte
    byte(radius & 0xFF),   // Radius low byte
}
```
`velocity >> 8` is an arithmetic shift on an `int16`, i.e. division by 256
rounding toward negative infinity (`/` on `Int` here); `velocity & 0xFF` is
the low byte of the two's-complement representation, i.e. `velocity % 256`. -/
def Drive (velocity radius : Int) : List Nat :=
  [CmdDrive,
   toByte (velocity / 256),
   toByte velocity,
   toByte (radius / 256),
   toByte radius]

/-- `Roomba.Stop() ≡ Drive(0, 0)`. -/
def StopCmd : List Nat := Drive 0 0

/-- The specification's description of the drive frame: opcode 137 followed by
the velocity and then the radius, each as a big-endian two's-complement
16-bit value (high byte = bits 8–15 of `x mod 2^16`, low byte =
bits 0–7). -/
def specDriveFrame (velocity radius : Int) : List Nat :=
  [137,
   ((velocity % 65536) / 256).toNat,
   ((velocity % 65536) % 256).toNat,
   ((radius % 65536) / 256).toNat,
   ((radius % 65536) % 256).toNat]

end Roomba

/-! ## Geometry (Go `image` package, as used by the detector) -/

namespace Image

/-- Go `image.Point`. -/
structure Point where
  X : Int
  Y : Int
deriving DecidableEq, Repr

/-- Go `image.Rectangle`. -/
structure Rectangle where
  Min : Point
  Max : Point
deriving DecidableEq, Repr

/-- Go `image.Rectangle.Dx()`. -/
def Rectangle.Dx (r : Rectangle) : Int := r.Max.X - r.Min.X

/-- Go `image.Rectangle.Empty()`: a rectangle with no interior. -/
def Rectangle.Empty (r : Rectangle) : Bool :=
  decide (r.Max.X ≤ r.Min.X) || decide (r.Max.Y ≤ r.Min.Y)

/-- Go `image.Rectangle.Overlaps(s)`: both rectangles are non-empty and share
at least one interior point. -/
def Rectangle.Overlaps (r s : Rectangle) : Bool :=
  !r.Empty && !s.Empty &&
    decide (r.Min.X < s.Max.X) && decide (s.Min.X < r.Max.X) &&
    decide (r.Min.Y < s.Max.Y) && decide (s.Min.Y < r.Max.Y)

/-- Go `image.Rect(x0, y0, x1, y1)`: builds a rectangle, swapping the
coordinates of either axis when they are given in the wrong order. -/
def Rect (x0 y0 x1 y1 : Int) : Rectangle :=
  if x0 > x1 then
    if y0 > y1 then ⟨⟨x1, y1⟩, ⟨x0, y0⟩⟩ else ⟨⟨x1, y0⟩, ⟨x0, y1⟩⟩
  else
    if y0 > y1 then ⟨⟨x0, y1⟩, ⟨x1, y0⟩⟩ else ⟨⟨x0, y0⟩, ⟨x1, y1⟩⟩

end Image

/-! ## Color detector (`lib/color_detection.go`) -/

namespace Gocv

/-- `gocv.Scalar`: a 4-component value (the HSV bounds use the first three). -/
structure Scalar where
  Val1 : Int
  Val2 : Int
  Val3 : Int
  Val4 : Int
deriving DecidableEq, Repr

end Gocv

/-- `LinePosition`: the detector's discrete position signal. -/
inductive LinePosition where
  | LineLeft
  | LineRight
  | LineCentered
  | LineNotFound
deriving DecidableEq, Repr

export LinePosition (LineLeft LineRight LineCentered LineNotFound)

/-- `ColorDetectionConfig`: configuration parameters of the detector. -/
structure ColorDetectionConfig where
  LowerHSVBound : Gocv.Scalar
  UpperHSVBound : Gocv.Scalar
  CenterWidth : Int
  MinContourArea : Int
  ShowWindow : Bool
  WindowName : String
  CameraID : Int
  MorphKernelSize : Int

/-- `DefaultColorDetectionConfig()`. -/
def DefaultColorDetectionConfig : ColorDetectionConfig :=
  { LowerHSVBound := ⟨35, 100, 100, 0⟩
    UpperHSVBound := ⟨50, 255, 255, 0⟩
    CenterWidth := 12
    MinContourArea := 300
    ShowWindow := false
    WindowName := "Line Tracking"
    CameraID := 0
    MorphKernelSize := 5 }

/-- A contour as the detection loop observes it through the opaque vision
primitives: `gocv.ContourArea` and `gocv.BoundingRect` are the only two
operations ever applied to a contour. -/
structure Contour where
  area : Int
  boundingRect : Image.Rectangle
deriving DecidableEq, Repr

namespace ColorDetector

/-- The largest-contour scan of `detectionLoop`:
```
for i := 0; i < contours.Size(); i++ {
    area := gocv.ContourArea(contours.At(i))
    if area > maxArea { maxArea = area; largestIdx = i }
}
```
starting from `maxArea = 0.0`, `largestIdx = -1` (`none`); the selected
contour stands for `contours.At(largestIdx)`. -/
def findLargestContour : List Contour → Int → Option Contour → Int × Option Contour
  | [], maxArea, largest => (maxArea, largest)
  | c :: rest, maxArea, largest =>
    if c.area > maxArea then findLargestContour rest c.area (some c)
    else findLargestContour rest maxArea largest

/-- The per-cycle center rectangle:
```
cd.centerRect = image.Rect((width/2)-(centerWidth/2), 0,
                           (width/2)+(centerWidth/2), height)
```
(`centerWidth` is passed in already computed; Go `/` on `int` truncates
toward zero, hence `Int.tdiv`). -/
def centerRect (width height centerWidth : Int) : Image.Rectangle :=
  Image.Rect
    (Int.tdiv width 2 - Int.tdiv centerWidth 2)
    0
    (Int.tdiv width 2 + Int.tdiv centerWidth 2)
    height

/-- Classification of the selected contour's bounding rectangle against the
center rectangle:
```
centerX := rect.Min.X + (rect.Dx() / 2)
if rect.Overlaps(cd.centerRect)      { position = LineCentered }
else if centerX < cd.centerRect.Min.X { position = LineLeft }
else                                  { position = LineRight }
``` -/
def classifyBoundingRect (rect cRect : Image.Rectangle) : LinePosition :=
  let centerX := rect.Min.X + Int.tdiv rect.Dx 2
  if rect.Overlaps cRect then LineCentered
  else if centerX < cRect.Min.X then LineLeft
  else LineRight

/-- One iteration of `detectionLoop` after a successful frame read, reduced to
what it publishes as `cd.position`.  The frame is abstracted by its
dimensions and the list of external contours the vision pipeline extracts
from the configured color mask.  `centerWidth := width / cd.Config.CenterWidth`
has no zero guard: `CenterWidth = 0` is a division-by-zero panic, modelled as
`none`. -/
def detectionCycle (cfg : ColorDetectionConfig) (width height : Int)
    (contours : List Contour) : Option LinePosition :=
  if cfg.CenterWidth = 0 then none
  else
    let centerWidth := Int.tdiv width cfg.CenterWidth
    let cRect := centerRect width height centerWidth
    some (if contours.length > 0 then
            match findLargestContour contours 0 none with
            | (maxArea, some largest) =>
              if maxArea > cfg.MinContourArea then
                classifyBoundingRect largest.boundingRect cRect
              else LineNotFound
            | (_, none) => LineNotFound
          else LineNotFound)

end ColorDetector

/-! ## Seek controller (`ColorSeeker`) -/

/-- `ColorSeekState`. -/
inductive ColorSeekState where
  | Spinning
  | Centering
  | Following
  | Stopped
deriving DecidableEq, Repr

export ColorSeekState (Spinning Centering Following Stopped)

/-- `ColorSeekConfig` (durations in nanoseconds, as Go's `time.Duration`). -/
structure ColorSeekConfig where
  SpinSpeed : Int
  ForwardSpeed : Int
  AdjustmentSpeed : Int
  UpdateInterval : Int
  LostColorTimeout : Int

/-- `DefaultColorSeekConfig()` (50 ms tick, 2 s loss timeout). -/
def DefaultColorSeekConfig : ColorSeekConfig :=
  { SpinSpeed := 100
    ForwardSpeed := 150
    AdjustmentSpeed := 80
    UpdateInterval := 50000000
    LostColorTimeout := 2000000000 }

/-- The mutable fields of a `ColorSeeker` that `updateMovement` reads and
writes: the current state and the `lastColorSeen` timestamp. -/
structure SeekerValue where
  state : ColorSeekState
  lastColorSeen : Int
deriving DecidableEq, Repr

namespace ColorSeeker

/-- `ColorSeeker.updateMovement(position)`, one controller tick: takes the
current time (`time.Now()` / `time.Since`), the seeker's mutable fields and
the sampled position; returns the updated fields and the `(velocity, radius)`
drive frame written to the Roomba on this tick, if any (`Roomba.Stop()` is
`Drive(0, 0)`, hence `some (0, 0)`). -/
def updateMovement (cfg : ColorSeekConfig) (now : Int) (s : SeekerValue)
    (position : LinePosition) : SeekerValue × Option (Int × Int) :=
  match position with
  | LineNotFound =>
    if s.state = Following ∨ s.state = Centering then
      if now - s.lastColorSeen > cfg.LostColorTimeout then
        (⟨Stopped, s.lastColorSeen⟩, some (0, 0))
      else
        (s, none)
    else if s.state = Spinning then
      (s, some (cfg.SpinSpeed, -1))
    else
      (s, none)
  | LineCentered =>
    let s1 : SeekerValue :=
      if s.state = Spinning ∨ s.state = Centering then ⟨Following, now⟩
      else ⟨s.state, now⟩
    (s1, some (cfg.ForwardSpeed, Roomba.StraightRadius))
  | LineLeft =>
    let s1 : SeekerValue :=
      if s.state = Spinning then ⟨Centering, now⟩ else ⟨s.state, now⟩
    (s1, some (cfg.AdjustmentSpeed, 1))
  | LineRight =>
    let s1 : SeekerValue :=
      if s.state = Spinning then ⟨Centering, now⟩ else ⟨s.state, now⟩
    (s1, some (cfg.AdjustmentSpeed, -1))

end ColorSeeker

/-! ## Line tracker (`lib/color_tracker.go`, `ColorTracker`) -/

/-- `ColorTrackerConfig` (durations in nanoseconds). -/
structure ColorTrackerConfig where
  MaxRotationSpeed : Int
  MinRotationSpeed : Int
  ForwardSpeed : Int
  UpdateInterval : Int
  StopDelay : Int

/-- `DefaultColorTrackerConfig()`. -/
def DefaultColorTrackerConfig : ColorTrackerConfig :=
  { MaxRotationSpeed := 80
    MinRotationSpeed := 35
    ForwardSpeed := 130
    UpdateInterval := 50000000
    StopDelay := 300000000 }

/-- The mutable fields of a `ColorTracker` that `handleColorPosition` reads
and writes: `colorLastSeen` (`none` is the zero `time.Time`, i.e. `IsZero`)
and `lastPosition`. -/
structure TrackerValue where
  colorLastSeen : Option Int
  lastPosition : LinePosition
deriving DecidableEq, Repr

namespace ColorTracker

/-- `ColorTracker.handleColorPosition(position)`, one controller tick;
returns the updated mutable fields and the drive frame written on this tick,
if any.  `MinRotationSpeed / 2` is Go `int16` division, `Int.tdiv`. -/
def handleColorPosition (cfg : ColorTrackerConfig) (now : Int)
    (s : TrackerValue) (position : LinePosition) :
    TrackerValue × Option (Int × Int) :=
  match position with
  | LineNotFound =>
    match s.colorLastSeen with
    | some seen =>
      if now - seen > cfg.StopDelay then
        (⟨none, s.lastPosition⟩, some (0, 0))
      else
        (s, none)
    | none =>
      (s, some (cfg.MinRotationSpeed, -1))
  | LineCentered =>
    (⟨some now, LineCentered⟩, some (cfg.ForwardSpeed, Roomba.StraightRadius))
  | LineLeft =>
    let rotationSpeed :=
      if s.lastPosition = LineRight then Int.tdiv cfg.MinRotationSpeed 2
      else cfg.MinRotationSpeed
    (⟨some now, LineLeft⟩, some (rotationSpeed, 1))
  | LineRight =>
    let rotationSpeed :=
      if s.lastPosition = LineLeft then Int.tdiv cfg.MinRotationSpeed 2
      else cfg.MinRotationSpeed
    (⟨some now, LineRight⟩, some (rotationSpeed, -1))

end ColorTracker

/-! ## Detector lifecycle (`ColorDetector.Start` / `Stop` / `detectionLoop`) -/

/-- The lifecycle-relevant state of a `ColorDetector`: the `running` flag and
whether `stopChan` has been closed.  No code path ever allocates a new
channel after `NewColorDetector`. -/
structure DetectorLifecycle where
  running : Bool
  stopClosed : Bool
deriving DecidableEq, Repr

namespace ColorDetector

/-- `NewColorDetector`: `running: false` and a fresh, open `stopChan`. -/
def newDetector : DetectorLifecycle := ⟨false, false⟩

/-- `ColorDetector.Start()`: returns immediately when already running,
otherwise marks the detector running and launches `detectionLoop` as a
goroutine.  The stop channel is untouched. -/
def startOp (s : DetectorLifecycle) : DetectorLifecycle :=
  if s.running then s else ⟨true, s.stopClosed⟩

/-- `ColorDetector.Stop()`: returns immediately when not running, otherwise
clears `running` and executes `close(cd.stopChan)`.  Closing an
already-closed channel panics in Go, modelled as `none`. -/
def stopOp (s : DetectorLifecycle) : Option DetectorLifecycle :=
  if s.running then
    if s.stopClosed then none else some ⟨false, true⟩
  else
    some s

/-- One test of the loop head
```
select {
case <-cd.stopChan:
    return
default:
    // read and process a frame
}
```
 — with `stopChan` closed the first case is always ready, so `default` is
never taken and the loop returns without touching a frame; with it open the
`default` branch runs and the iteration processes a frame. -/
def detectionLoopProcessesFrame (s : DetectorLifecycle) : Bool :=
  !s.stopClosed

/-- A call into the detector's public lifecycle surface. -/
inductive LifecycleOp where
  | start
  | stop
deriving DecidableEq, Repr

/-- Apply one lifecycle call (propagating a panic). -/
def applyOp (s : DetectorLifecycle) (op : LifecycleOp) : Option DetectorLifecycle :=
  match op with
  | LifecycleOp.start => some (startOp s)
  | LifecycleOp.stop => stopOp s

/-- Apply a sequence of lifecycle calls. -/
def applyOps (s : DetectorLifecycle) : List LifecycleOp → Option DetectorLifecycle
  | [] => some s
  | op :: rest =>
    match applyOp s op with
    | some s1 => applyOps s1 rest
    | none => none

end ColorDetector

/-! ## The `seekColor` handler hand-off (`main` package)

An interleaving model of the moment a new `ColorSeeker` replaces a running
one.  Three write sources touch the serial transport here: the old seeker's
`controlLoop` goroutine (one `updateMovement` call per tick), the handler
thread (which runs `activeSeeker.Stop()`, whose body performs
`close(stopChan)` and then `roomba.Stop()`), and the freshly created seeker
(whose `Start()` issues its first spin `Drive`).  The old loop's
```
select { case <-cs.stopChan: return; case <-ticker.C: ... }
```
observes the closed channel only at the top of an iteration; `Stop()` never
waits for the goroutine to exit. -/

namespace SeekColor

/-- Who wrote a drive frame to the transport. -/
inductive Writer where
  | oldSeeker
  | handler
  | newSeeker
deriving DecidableEq, Repr

/-- A drive frame on the transport, tagged with its writer. -/
structure MotorWrite where
  writer : Writer
  velocity : Int
  radius : Int
deriving DecidableEq, Repr

/-- Program counter of the old seeker's `controlLoop` goroutine. -/
inductive LoopPc where
  | atSelect
  | inTick
  | exited
deriving DecidableEq, Repr

/-- Joint state: the old loop goroutine, the old seeker's stop channel, the
handler thread's progress through the `seekColor` body (0 = before
`activeSeeker.Stop()`, 1 = channel closed, 2 = halt written, 3 = new seeker
started), and the serialized log of transport writes. -/
structure HandoffState where
  oldPc : LoopPc
  stopClosed : Bool
  handlerPc : Nat
  log : List MotorWrite
deriving DecidableEq, Repr

/-- Initial state: old seeker running (loop at its `select`), handler just
entered the `seekColor` body with `activeSeeker != nil`. -/
def handoffInit : HandoffState := ⟨LoopPc.atSelect, false, 0, []⟩

/-- One atomic step of either thread. -/
inductive HandoffStep where
  /-- The old loop's `select` takes the `<-cs.stopChan` case and returns. -/
  | oldObserveStop
  /-- The old loop's `select` takes the `<-ticker.C` case and enters
  `updateMovement`. -/
  | oldTickFire
  /-- The old loop, inside `updateMovement` (state `Spinning`), writes its
  spin drive frame and returns to the `select`. -/
  | oldIssueDrive
  /-- The handler runs `close(cs.stopChan)` inside `activeSeeker.Stop()`. -/
  | handlerCloseStop
  /-- The handler runs `cs.roomba.Stop()` (writes `Drive(0,0)`), still inside
  `activeSeeker.Stop()`. -/
  | handlerHaltMotors
  /-- The handler's new seeker runs `Start()`, writing its first spin
  drive frame. -/
  | newSeekerFirstDrive
deriving DecidableEq, Repr

/-- The step relation.  `oldObserveStop` requires the channel to be closed;
`oldTickFire` requires only a pending tick (and is also enabled after the
close: Go's `select` chooses among ready cases, and a tick that was consumed
before the close is in any case already past the `select`). -/
def handoffStep (s : HandoffState) (st : HandoffStep) : Option HandoffState :=
  match st with
  | HandoffStep.oldObserveStop =>
    if s.oldPc = LoopPc.atSelect ∧ s.stopClosed then
      some ⟨LoopPc.exited, s.stopClosed, s.handlerPc, s.log⟩
    else none
  | HandoffStep.oldTickFire =>
    if s.oldPc = LoopPc.atSelect then
      some ⟨LoopPc.inTick, s.stopClosed, s.handlerPc, s.log⟩
    else none
  | HandoffStep.oldIssueDrive =>
    if s.oldPc = LoopPc.inTick then
      some ⟨LoopPc.atSelect, s.stopClosed, s.handlerPc,
        s.log ++ [⟨Writer.oldSeeker, 100, -1⟩]⟩
    else none
  | HandoffStep.handlerCloseStop =>
    if s.handlerPc = 0 then
      some ⟨s.oldPc, true, 1, s.log⟩
    else none
  | HandoffStep.handlerHaltMotors =>
    if s.handlerPc = 1 then
      some ⟨s.oldPc, s.stopClosed, 2, s.log ++ [⟨Writer.handler, 0, 0⟩]⟩
    else none
  | HandoffStep.newSeekerFirstDrive =>
    if s.handlerPc = 2 then
      some ⟨s.oldPc, s.stopClosed, 3, s.log ++ [⟨Writer.newSeeker, 100, -1⟩]⟩
    else none

/-- Run a sequence of steps. -/
def handoffRun (s : HandoffState) : List HandoffStep → Option HandoffState
  | [] => some s
  | st :: rest =>
    match handoffStep s st with
    | some s1 => handoffRun s1 rest
    | none => none

end SeekColor

/-! ## Theorems -/

/-- Helper: the largest-contour scan leaves its accumulator untouched when no
remaining contour improves on it. -/
theorem findLargestContour_stable (cs : List Contour) (acc : Int)
    (best : Option Contour) (h : ∀ c ∈ cs, ¬ acc < c.area) :
    ColorDetector.findLargestContour cs acc best = (acc, best) := by
  induction cs generalizing acc best with
  | nil => rfl
  | cons a rest ih =>
    simp only [ColorDetector.findLargestContour]
    rw [if_neg (h a (List.mem_cons_self a rest))]
    exact ih acc best (fun c hc => h c (List.mem_cons_of_mem a hc))

/-- Helper: when one contour strictly dominates every other contour's area
(and beats the accumulator), the scan returns exactly that contour. -/
theorem findLargestContour_picks (c : Contour) (cs : List Contour)
    (hmem : c ∈ cs) (hmax : ∀ c' ∈ cs, c' ≠ c → c'.area < c.area) :
    ∀ acc best, acc < c.area →
      ColorDetector.findLargestContour cs acc best = (c.area, some c) := by
  induction cs with
  | nil => exact absurd hmem (List.not_mem_nil c)
  | cons a rest ih =>
    intro acc best hacc
    by_cases hac : a = c
    · subst hac
      simp only [ColorDetector.findLargestContour]
      rw [if_pos hacc]
      apply findLargestContour_stable
      intro c' hc'
      by_cases h' : c' = a
      · subst h'; exact lt_irrefl _
      · exact lt_asymm (hmax c' (List.mem_cons_of_mem a hc') h')
    · have hmem' : c ∈ rest := by
        rcases List.mem_cons.mp hmem with h | h
        · exact absurd h.symm hac
        · exact h
      have hmax' : ∀ c' ∈ rest, c' ≠ c → c'.area < c.area :=
        fun c' h' hne => hmax c' (List.mem_cons_of_mem a h') hne
      have ha : a.area < c.area := hmax a (List.mem_cons_self a rest) hac
      simp only [ColorDetector.findLargestContour]
      by_cases h2 : a.area > acc
      · rw [if_pos h2]; exact ih hmem' hmax' a.area (some a) ha
      · rw [if_neg h2]; exact ih hmem' hmax' acc best hacc

/-- Helper: the scan's running maximum never exceeds a bound that dominates
the accumulator and every contour area. -/
theorem findLargestContour_fst_le (A : Int) :
    ∀ (cs : List Contour) (acc : Int) (best : Option Contour),
      (∀ c ∈ cs, c.area ≤ A) → acc ≤ A →
      (ColorDetector.findLargestContour cs acc best).1 ≤ A := by
  intro cs
  induction cs with
  | nil => intro acc best _ hacc; exact hacc
  | cons a rest ih =>
    intro acc best h hacc
    simp only [ColorDetector.findLargestContour]
    by_cases h2 : a.area > acc
    · rw [if_pos h2]
      exact ih a.area (some a) (fun c hc => h c (List.mem_cons_of_mem a hc))
        (h a (List.mem_cons_self a rest))
    · rw [if_neg h2]
      exact ih acc best (fun c hc => h c (List.mem_cons_of_mem a hc)) hacc

/-- C1: for every signed-16-bit velocity and radius, `Drive` writes exactly
five bytes in a single transport write: opcode 137, then the velocity as a
signed (two's-complement) 16-bit big-endian value, then the radius
likewise. -/
theorem roomba_drive_encoding (velocity radius : Int)
    (hv₁ : -32768 ≤ velocity) (hv₂ : velocity < 32768)
    (hr₁ : -32768 ≤ radius) (hr₂ : radius < 32768) :
    Roomba.Drive velocity radius = Roomba.specDriveFrame velocity radius ∧
      (Roomba.Drive velocity radius).length = 5 := by
  constructor
  · have h1 : (velocity / 256) % 256 = (velocity % 65536) / 256 := by omega
    have h2 : velocity % 256 = (velocity % 65536) % 256 := by omega
    have h3 : (radius / 256) % 256 = (radius % 65536) / 256 := by omega
    have h4 : radius % 256 = (radius % 65536) % 256 := by omega
    simp only [Roomba.Drive, Roomba.specDriveFrame, Roomba.toByte,
      Roomba.CmdDrive, h1, h2, h3, h4]
  · rfl

/-- C1 witness: `Drive(300, 32767)` is `[137, 0x01, 0x2C, 0x7F, 0xFF]`, and
`Drive(-300, 32767)` encodes the velocity as the two's-complement 16-bit
value `0xFED4`. -/
theorem roomba_drive_encoding_witness :
    Roomba.Drive 300 32767 = [137, 0x01, 0x2C, 0x7F, 0xFF] ∧
      Roomba.Drive (-300) 32767 = [137, 0xFE, 0xD4, 0x7F, 0xFF] := by
  constructor
  · have h := roomba_drive_encoding 300 32767
      (by decide) (by decide) (by decide) (by decide)
    exact h.1.trans (by decide)
  · have h := roomba_drive_encoding (-300) 32767
      (by decide) (by decide) (by decide) (by decide)
    exact h.1.trans (by decide)

/-- C2: whenever one contour strictly dominates all others in area and its
area exceeds the minimum-area threshold, the published position is determined
solely by that contour's axis-aligned bounding box: `CENTERED` when the box
overlaps the center zone (no matter what smaller regions are present),
otherwise `LEFT` when the box's horizontal center lies left of the zone's
left edge, otherwise `RIGHT`. -/
theorem detection_largest_contour_classifies (cfg : ColorDetectionConfig)
    (width height : Int) (contours : List Contour) (c : Contour)
    (hd : cfg.CenterWidth ≠ 0)
    (hmem : c ∈ contours)
    (hmax : ∀ c' ∈ contours, c' ≠ c → c'.area < c.area)
    (hthr : cfg.MinContourArea < c.area)
    (h0 : 0 ≤ cfg.MinContourArea) :
    ColorDetector.detectionCycle cfg width height contours =
      some (if c.boundingRect.Overlaps
              (ColorDetector.centerRect width height
                (Int.tdiv width cfg.CenterWidth)) then
              LineCentered
            else if c.boundingRect.Min.X + Int.tdiv c.boundingRect.Dx 2 <
                (ColorDetector.centerRect width height
                  (Int.tdiv width cfg.CenterWidth)).Min.X then
              LineLeft
            else LineRight) := by
  have hacc : (0 : Int) < c.area := lt_of_le_of_lt h0 hthr
  have hpick := findLargestContour_picks c contours hmem hmax 0 none hacc
  have hlen : contours.length > 0 :=
    List.length_pos.mpr (List.ne_nil_of_mem hmem)
  simp only [ColorDetector.detectionCycle, if_neg hd, hpick, if_pos hlen,
    if_pos hthr, ColorDetector.classifyBoundingRect]

/-- C2 witness: with the default configuration, a 640×480 frame whose
dominant contour (area 5000) has a bounding box overlapping the center zone
is classified `CENTERED` even though a smaller region is present. -/
theorem detection_largest_contour_classifies_witness :
    ColorDetector.detectionCycle DefaultColorDetectionConfig 640 480
      [⟨100, Image.Rect 10 10 20 20⟩, ⟨5000, Image.Rect 300 200 340 250⟩]
      = some LineCentered := by
  have h := detection_largest_contour_classifies DefaultColorDetectionConfig
    640 480 [⟨100, Image.Rect 10 10 20 20⟩, ⟨5000, Image.Rect 300 200 340 250⟩]
    ⟨5000, Image.Rect 300 200 340 250⟩
    (by decide) (by decide) (by decide) (by decide) (by decide)
  exact h.trans (by decide)

/-- C3: when no contour exists, or every contour's area is at most the
minimum-area threshold (the maximum does not strictly exceed it — including
the boundary case of exact equality), the published position is
`NOT_FOUND`. -/
theorem detection_small_contours_not_found (cfg : ColorDetectionConfig)
    (width height : Int) (contours : List Contour)
    (hd : cfg.CenterWidth ≠ 0)
    (h : contours = [] ∨ ∀ c ∈ contours, c.area ≤ cfg.MinContourArea) :
    ColorDetector.detectionCycle cfg width height contours =
      some LineNotFound := by
  simp only [ColorDetector.detectionCycle, if_neg hd, Option.some.injEq]
  rcases h with rfl | hsmall
  · rfl
  · by_cases hlen : contours.length > 0
    · rw [if_pos hlen]
      by_cases h0 : 0 ≤ cfg.MinContourArea
      · rcases hr : ColorDetector.findLargestContour contours 0 none with
          ⟨maxArea, best⟩
        have hle := findLargestContour_fst_le cfg.MinContourArea contours
          0 none hsmall h0
        rw [hr] at hle
        simp only at hle
        cases best with
        | none => rfl
        | some c => exact if_neg (not_lt.mpr hle)
      · have hst := findLargestContour_stable contours 0 none
          (fun c' hc' => by have := hsmall c' hc'; omega)
        rw [hst]
    · rw [if_neg hlen]

/-- C3 witness: a single contour whose area is exactly the default threshold
(300) is classified `NOT_FOUND` — the comparison is strict. -/
theorem detection_small_contours_not_found_witness :
    ColorDetector.detectionCycle DefaultColorDetectionConfig 640 480
      [⟨300, Image.Rect 300 200 340 250⟩] = some LineNotFound :=
  detection_small_contours_not_found DefaultColorDetectionConfig 640 480
    [⟨300, Image.Rect 300 200 340 250⟩] (by decide)
    (Or.inr (by decide))

/-- C4 counterexample: with the default configuration, in state `FOLLOWING`
with the color last seen 1 ns ago (well within the 2 s loss timeout), a
`NOT_FOUND` tick issues no drive command at all — contrary to the claim that
a forward drive command is re-issued on that tick. -/
theorem seeker_lost_within_timeout_counterexample :
    (1 : Int) - 0 < DefaultColorSeekConfig.LostColorTimeout ∧
      ColorSeeker.updateMovement DefaultColorSeekConfig 1
        ⟨Following, 0⟩ LineNotFound = (⟨Following, 0⟩, none) :=
  ⟨by decide, by decide⟩

/-- C4 (amended): in state `FOLLOWING` or `CENTERING` with position
`NOT_FOUND`: while the time since the last positive detection is at most the
loss timeout, the state is unchanged and no drive command is issued (the
previously commanded motion simply continues); once it exceeds the timeout,
the controller transitions to `STOPPED` and issues `Drive(0,0)`; and from
`STOPPED`, further `NOT_FOUND` ticks issue no drive command, so the halt is
issued exactly once. -/
theorem seeker_lost_color_behavior (cfg : ColorSeekConfig) (now : Int)
    (s : SeekerValue) (h : s.state = Following ∨ s.state = Centering) :
    (now - s.lastColorSeen ≤ cfg.LostColorTimeout →
        ColorSeeker.updateMovement cfg now s LineNotFound = (s, none)) ∧
    (cfg.LostColorTimeout < now - s.lastColorSeen →
        ColorSeeker.updateMovement cfg now s LineNotFound
          = (⟨Stopped, s.lastColorSeen⟩, some (0, 0))) ∧
    (∀ s' : SeekerValue, s'.state = Stopped →
        ColorSeeker.updateMovement cfg now s' LineNotFound = (s', none)) := by
  refine ⟨fun h1 => ?_, fun h1 => ?_, fun s' h' => ?_⟩
  · simp only [ColorSeeker.updateMovement, if_pos h,
      if_neg (not_lt.mpr h1)]
  · simp only [ColorSeeker.updateMovement, if_pos h, if_pos h1]
  · have h1 : ¬ (s'.state = Following ∨ s'.state = Centering) := by
      rw [h']; decide
    have h2 : ¬ s'.state = Spinning := by rw [h']; decide
    simp only [ColorSeeker.updateMovement, if_neg h1, if_neg h2]

/-- C4 witness: default configuration.  A `NOT_FOUND` tick 1 ns after the
last detection leaves `FOLLOWING` unchanged with no command; 3 s after the
last detection it stops exactly once; a later `NOT_FOUND` tick in `STOPPED`
issues nothing. -/
theorem seeker_lost_color_behavior_witness :
    ColorSeeker.updateMovement DefaultColorSeekConfig 1
        ⟨Following, 0⟩ LineNotFound = (⟨Following, 0⟩, none) ∧
      ColorSeeker.updateMovement DefaultColorSeekConfig 3000000000
        ⟨Following, 0⟩ LineNotFound = (⟨Stopped, 0⟩, some (0, 0)) ∧
      ColorSeeker.updateMovement DefaultColorSeekConfig 3000000001
        ⟨Stopped, 0⟩ LineNotFound = (⟨Stopped, 0⟩, none) := by
  refine ⟨?_, ?_, ?_⟩
  · exact (seeker_lost_color_behavior DefaultColorSeekConfig 1
      ⟨Following, 0⟩ (Or.inl rfl)).1 (by decide)
  · exact (seeker_lost_color_behavior DefaultColorSeekConfig 3000000000
      ⟨Following, 0⟩ (Or.inl rfl)).2.1 (by decide)
  · exact (seeker_lost_color_behavior DefaultColorSeekConfig 3000000001
      ⟨Following, 0⟩ (Or.inl rfl)).2.2 ⟨Stopped, 0⟩ rfl

/-- C5: from `SPINNING`, a single `CENTERED` tick transitions directly to
`FOLLOWING` (never entering `CENTERING`) and issues the forward drive
`Drive(ForwardSpeed, StraightRadius)`. -/
theorem seeker_spinning_centered_goes_following (cfg : ColorSeekConfig)
    (now seen : Int) :
    ColorSeeker.updateMovement cfg now ⟨Spinning, seen⟩ LineCentered
      = (⟨Following, now⟩, some (cfg.ForwardSpeed, Roomba.StraightRadius)) := by
  simp [ColorSeeker.updateMovement]

/-- C6: for positive frame dimensions and a center-width divisor of at least
one, the per-cycle center zone — `x` from `width/2 - centerWidth/2` to
`width/2 + centerWidth/2` with `centerWidth = width/divisor`, full frame
height — is symmetric about `width/2` and fully contained in
`[0, width] × [0, height]`, under the integer divisions the code uses. -/
theorem center_zone_symmetric_and_contained (width height divisor : Int)
    (hw : 0 < width) (hh : 0 < height) (hd : 1 ≤ divisor) :
    Int.tdiv width 2 -
        (ColorDetector.centerRect width height (Int.tdiv width divisor)).Min.X
      = (ColorDetector.centerRect width height (Int.tdiv width divisor)).Max.X -
        Int.tdiv width 2 ∧
    0 ≤ (ColorDetector.centerRect width height (Int.tdiv width divisor)).Min.X ∧
    (ColorDetector.centerRect width height (Int.tdiv width divisor)).Max.X
      ≤ width ∧
    (ColorDetector.centerRect width height (Int.tdiv width divisor)).Min.Y
      = 0 ∧
    (ColorDetector.centerRect width height (Int.tdiv width divisor)).Max.Y
      = height := by
  obtain ⟨wn, rfl⟩ := Int.eq_ofNat_of_zero_le hw.le
  obtain ⟨hn, rfl⟩ := Int.eq_ofNat_of_zero_le hh.le
  obtain ⟨dn, rfl⟩ := Int.eq_ofNat_of_zero_le (le_trans zero_le_one hd)
  have e1 : Int.tdiv (wn : Int) (dn : Int) = ((wn / dn : Nat) : Int) := rfl
  have e2 : Int.tdiv (wn : Int) 2 = ((wn / 2 : Nat) : Int) := rfl
  have e3 : Int.tdiv ((wn / dn : Nat) : Int) 2 = ((wn / dn / 2 : Nat) : Int) :=
    rfl
  have f1 : wn / dn ≤ wn := Nat.div_le_self wn dn
  have f2 : wn / dn / 2 ≤ wn / 2 := Nat.div_le_div_right f1
  have f0 : (0 : Int) ≤ ((wn / dn : Nat) : Int) := Int.natCast_nonneg _
  have key : ColorDetector.centerRect (wn : Int) (hn : Int)
      (Int.tdiv (wn : Int) (dn : Int)) =
      ⟨⟨((wn / 2 : Nat) : Int) - ((wn / dn / 2 : Nat) : Int), 0⟩,
        ⟨((wn / 2 : Nat) : Int) + ((wn / dn / 2 : Nat) : Int), (hn : Int)⟩⟩ := by
    simp only [ColorDetector.centerRect, Image.Rect, e1, e2, e3]
    rw [if_neg (by omega :
      ¬ ((wn / 2 : Nat) : Int) - ((wn / dn / 2 : Nat) : Int) >
        ((wn / 2 : Nat) : Int) + ((wn / dn / 2 : Nat) : Int))]
    rw [if_neg (by omega : ¬ (0 : Int) > (hn : Int))]
  rw [key, e2]
  refine ⟨?_, ?_, ?_, ?_, ?_⟩ <;> simp only [] <;> omega

/-- C6 witness: a 641×481 frame with the default divisor 12 (odd width, odd
center width): the zone runs from 294 to 346, symmetric about 320 and inside
the frame. -/
theorem center_zone_symmetric_and_contained_witness :
    Int.tdiv 641 2 -
        (ColorDetector.centerRect 641 481 (Int.tdiv 641 12)).Min.X
      = (ColorDetector.centerRect 641 481 (Int.tdiv 641 12)).Max.X -
        Int.tdiv 641 2 ∧
    0 ≤ (ColorDetector.centerRect 641 481 (Int.tdiv 641 12)).Min.X ∧
    (ColorDetector.centerRect 641 481 (Int.tdiv 641 12)).Max.X ≤ 641 ∧
    (ColorDetector.centerRect 641 481 (Int.tdiv 641 12)).Min.Y = 0 ∧
    (ColorDetector.centerRect 641 481 (Int.tdiv 641 12)).Max.Y = 481 :=
  center_zone_symmetric_and_contained 641 481 12
    (by decide) (by decide) (by decide)

/-- C7: tracker direction damping.  When the sampled position flips between
`LEFT` and `RIGHT` on consecutive ticks (either order), the second tick's
turn command uses half the configured turning speed
(`MinRotationSpeed / 2`, Go integer division); a first detection or a
same-direction repeat uses the full configured turning speed on both
ticks. -/
theorem tracker_direction_damping (cfg : ColorTrackerConfig) (t1 t2 : Int)
    (s0 : TrackerValue) :
    ((ColorTracker.handleColorPosition cfg t2
        (ColorTracker.handleColorPosition cfg t1 s0 LineLeft).1 LineRight).2
      = some (Int.tdiv cfg.MinRotationSpeed 2, -1)) ∧
    ((ColorTracker.handleColorPosition cfg t2
        (ColorTracker.handleColorPosition cfg t1 s0 LineRight).1 LineLeft).2
      = some (Int.tdiv cfg.MinRotationSpeed 2, 1)) ∧
    (s0.lastPosition = LineNotFound →
      (ColorTracker.handleColorPosition cfg t1 s0 LineLeft).2
          = some (cfg.MinRotationSpeed, 1) ∧
      (ColorTracker.handleColorPosition cfg t2
          (ColorTracker.handleColorPosition cfg t1 s0 LineLeft).1 LineLeft).2
        = some (cfg.MinRotationSpeed, 1)) := by
  refine ⟨?_, ?_, fun h => ⟨?_, ?_⟩⟩
  · simp [ColorTracker.handleColorPosition]
  · simp [ColorTracker.handleColorPosition]
  · simp [ColorTracker.handleColorPosition, h]
  · simp [ColorTracker.handleColorPosition]

/-- C7 witness: default configuration (`MinRotationSpeed = 35`).  `LEFT` then
`RIGHT` issues the damped `Drive(17, -1)` on the second tick; from a fresh
tracker, `LEFT` then `LEFT` issues the full-speed `Drive(35, 1)` on both
ticks. -/
theorem tracker_direction_damping_witness :
    ((ColorTracker.handleColorPosition DefaultColorTrackerConfig 200
        (ColorTracker.handleColorPosition DefaultColorTrackerConfig 100
          ⟨none, LineNotFound⟩ LineLeft).1 LineRight).2
      = some (17, -1)) ∧
    ((ColorTracker.handleColorPosition DefaultColorTrackerConfig 100
        ⟨none, LineNotFound⟩ LineLeft).2 = some (35, 1)) ∧
    ((ColorTracker.handleColorPosition DefaultColorTrackerConfig 200
        (ColorTracker.handleColorPosition DefaultColorTrackerConfig 100
          ⟨none, LineNotFound⟩ LineLeft).1 LineLeft).2 = some (35, 1)) := by
  have h := tracker_direction_damping DefaultColorTrackerConfig 100 200
    ⟨none, LineNotFound⟩
  exact ⟨h.1.trans (by decide), (h.2.2 rfl).1.trans (by decide),
    (h.2.2 rfl).2.trans (by decide)⟩

/-- C9 counterexample: calling `Stop()` on a freshly constructed, never
started detector returns early without closing the stop channel; a
subsequent `Start()` then launches a detection loop that does process frames
— contradicting the claim that after one `Stop()` the stop channel is closed
and the object never processes another frame. -/
theorem detector_stop_before_start_counterexample :
    ColorDetector.stopOp ColorDetector.newDetector
        = some ColorDetector.newDetector ∧
      ColorDetector.newDetector.stopClosed = false ∧
      ColorDetector.applyOps ColorDetector.newDetector
          [ColorDetector.LifecycleOp.stop, ColorDetector.LifecycleOp.start]
        = some ⟨true, false⟩ ∧
      ColorDetector.detectionLoopProcessesFrame ⟨true, false⟩ = true := by
  decide

/-- Helper: once the stop channel is closed, no sequence of `Start`/`Stop`
calls that completes without panicking ever reopens it (no code path ever
allocates a new channel). -/
theorem applyOps_stopClosed_mono :
    ∀ (ops : List ColorDetector.LifecycleOp) (s s1 : DetectorLifecycle),
      s.stopClosed = true → ColorDetector.applyOps s ops = some s1 →
      s1.stopClosed = true := by
  intro ops
  induction ops with
  | nil =>
    intro s s1 h heq
    simp only [ColorDetector.applyOps, Option.some.injEq] at heq
    rw [← heq]; exact h
  | cons op rest ih =>
    intro s s1 h heq
    simp only [ColorDetector.applyOps] at heq
    cases hop : ColorDetector.applyOp s op with
    | none => rw [hop] at heq; exact absurd heq (by simp)
    | some s2 =>
      rw [hop] at heq
      refine ih s2 s1 ?_ heq
      cases op with
      | start =>
        simp only [ColorDetector.applyOp, ColorDetector.startOp,
          Option.some.injEq] at hop
        by_cases hr : s.running = true
        · rw [if_pos hr] at hop; rw [← hop]; exact h
        · rw [if_neg hr] at hop; rw [← hop]; exact h
      | stop =>
        simp only [ColorDetector.applyOp, ColorDetector.stopOp] at hop
        by_cases hr : s.running = true
        · rw [if_pos hr, if_pos h] at hop; exact absurd hop (by simp)
        · rw [if_neg hr] at hop
          simp only [Option.some.injEq] at hop
          rw [← hop]; exact h

/-- C9 (amended): once `Stop()` has been called on a running detector whose
channel is still open, the stop channel is closed (and `running` cleared) and
is never recreated by any later sequence of `Start`/`Stop` calls; every state
reachable from there has the channel closed, so any relaunched detection
loop observes the closed channel at its first `select` and returns without
processing a frame.  A later `Start()` does mark the object running (with
the channel still closed), and only a freshly constructed detector has an
open channel again. -/
theorem detector_stop_is_permanent (s0 : DetectorLifecycle)
    (hr : s0.running = true) (hc : s0.stopClosed = false) :
    ColorDetector.stopOp s0 = some ⟨false, true⟩ ∧
    (∀ (ops : List ColorDetector.LifecycleOp) (s1 : DetectorLifecycle),
       ColorDetector.applyOps ⟨false, true⟩ ops = some s1 →
       s1.stopClosed = true ∧
         ColorDetector.detectionLoopProcessesFrame s1 = false) ∧
    ColorDetector.startOp ⟨false, true⟩ = ⟨true, true⟩ ∧
    ColorDetector.newDetector.stopClosed = false := by
  refine ⟨?_, fun ops s1 heq => ?_, rfl, rfl⟩
  · simp only [ColorDetector.stopOp, if_pos hr, hc]
    rfl
  · have h := applyOps_stopClosed_mono ops ⟨false, true⟩ s1 rfl heq
    exact ⟨h, by simp [ColorDetector.detectionLoopProcessesFrame, h]⟩

/-- C9 witness: stopping a started detector (`running`, channel open) closes
the channel; after a subsequent `Start()` the detector is marked running but
the relaunched loop does not process a frame. -/
theorem detector_stop_is_permanent_witness :
    ColorDetector.stopOp ⟨true, false⟩ = some ⟨false, true⟩ ∧
      ((⟨true, true⟩ : DetectorLifecycle).stopClosed = true ∧
        ColorDetector.detectionLoopProcessesFrame ⟨true, true⟩ = false) := by
  have h := detector_stop_is_permanent ⟨true, false⟩ rfl rfl
  exact ⟨h.1, h.2.1 [ColorDetector.LifecycleOp.start] ⟨true, true⟩ (by decide)⟩

/-- C10 counterexample: the detection cycle does not require
`CenterWidth ≥ 1` to be total: with `CenterWidth = -1` (which violates the
claimed precondition) the cycle completes without a division-by-zero panic
and publishes a position. -/
theorem centerwidth_negative_cycle_total_counterexample :
    ColorDetector.detectionCycle
        { DefaultColorDetectionConfig with CenterWidth := -1 } 640 480 []
      = some LineNotFound ∧
      ¬ (1 : Int) ≤ -1 := by
  constructor
  · rfl
  · decide

/-- C10 (amended): the center-zone computation divides the frame width by
`Config.CenterWidth` with no guard, so a cycle panics with a division by
zero exactly when `CenterWidth = 0` (in particular on the first successfully
read frame of a detector constructed with `CenterWidth = 0`); every nonzero
`CenterWidth` — including the intended values `≥ 1` — gives a total
cycle. -/
theorem detection_cycle_panics_iff_centerwidth_zero
    (cfg : ColorDetectionConfig) (width height : Int)
    (contours : List Contour) :
    ColorDetector.detectionCycle cfg width height contours = none ↔
      cfg.CenterWidth = 0 := by
  by_cases hd : cfg.CenterWidth = 0
  · simp [ColorDetector.detectionCycle, hd]
  · simp [ColorDetector.detectionCycle, hd]

/-- C8 counterexample: a legal interleaving of the `seekColor` hand-off in
which the old seeker's sampling loop — already past its `select` when the
handler ran `Stop()` — writes one more drive frame to the transport after
the new seeker's first drive.  The old loop had therefore not exited before
the new controller issued drive commands: `Stop()` closes the stop channel
but never waits for the `controlLoop` goroutine. -/
theorem seekColor_handoff_counterexample :
    SeekColor.handoffRun SeekColor.handoffInit
        [SeekColor.HandoffStep.oldTickFire,
         SeekColor.HandoffStep.handlerCloseStop,
         SeekColor.HandoffStep.handlerHaltMotors,
         SeekColor.HandoffStep.newSeekerFirstDrive,
         SeekColor.HandoffStep.oldIssueDrive]
      = some ⟨SeekColor.LoopPc.atSelect, true, 3,
          [⟨SeekColor.Writer.handler, 0, 0⟩,
           ⟨SeekColor.Writer.newSeeker, 100, -1⟩,
           ⟨SeekColor.Writer.oldSeeker, 100, -1⟩]⟩ := by
  decide

/-- Helper: invariant of the hand-off model — while the old seeker's stop
channel is still open, the handler has not yet run `Stop()` and the new
seeker has written nothing to the transport. -/
theorem handoffStep_closed_before_new (s s' : SeekColor.HandoffState)
    (st : SeekColor.HandoffStep)
    (hJ : s.stopClosed = false →
      s.handlerPc = 0 ∧
        ∀ w ∈ s.log, w.writer ≠ SeekColor.Writer.newSeeker)
    (hstep : SeekColor.handoffStep s st = some s') :
    s'.stopClosed = false →
      s'.handlerPc = 0 ∧
        ∀ w ∈ s'.log, w.writer ≠ SeekColor.Writer.newSeeker := by
  cases st with
  | oldObserveStop =>
    simp only [SeekColor.handoffStep] at hstep
    split_ifs at hstep with hC
    simp only [Option.some.injEq] at hstep
    rw [← hstep]
    intro h'
    have h2 : s.stopClosed = false := h'
    rw [h2] at hC
    exact absurd hC.2 (by decide)
  | oldTickFire =>
    simp only [SeekColor.handoffStep] at hstep
    split_ifs at hstep with hC
    simp only [Option.some.injEq] at hstep
    rw [← hstep]
    exact hJ
  | oldIssueDrive =>
    simp only [SeekColor.handoffStep] at hstep
    split_ifs at hstep with hC
    simp only [Option.some.injEq] at hstep
    rw [← hstep]
    intro h'
    rcases hJ h' with ⟨h0, hws⟩
    refine ⟨h0, fun w hw => ?_⟩
    rcases List.mem_append.mp hw with hw1 | hw2
    · exact hws w hw1
    · rcases List.mem_singleton.mp hw2 with rfl
      decide
  | handlerCloseStop =>
    simp only [SeekColor.handoffStep] at hstep
    split_ifs at hstep with hC
    simp only [Option.some.injEq] at hstep
    rw [← hstep]
    intro h'
    exact absurd h' (by simp)
  | handlerHaltMotors =>
    simp only [SeekColor.handoffStep] at hstep
    split_ifs at hstep with hC
    simp only [Option.some.injEq] at hstep
    rw [← hstep]
    intro h'
    have := (hJ h').1
    omega
  | newSeekerFirstDrive =>
    simp only [SeekColor.handoffStep] at hstep
    split_ifs at hstep with hC
    simp only [Option.some.injEq] at hstep
    rw [← hstep]
    intro h'
    have := (hJ h').1
    omega

/-- Helper: the invariant of `handoffStep_closed_before_new` is preserved by
whole runs. -/
theorem handoffRun_closed_before_new :
    ∀ (tr : List SeekColor.HandoffStep) (s s1 : SeekColor.HandoffState),
      (s.stopClosed = false →
        s.handlerPc = 0 ∧
          ∀ w ∈ s.log, w.writer ≠ SeekColor.Writer.newSeeker) →
      SeekColor.handoffRun s tr = some s1 →
      (s1.stopClosed = false →
        s1.handlerPc = 0 ∧
          ∀ w ∈ s1.log, w.writer ≠ SeekColor.Writer.newSeeker) := by
  intro tr
  induction tr with
  | nil =>
    intro s s1 hJ heq
    simp only [SeekColor.handoffRun, Option.some.injEq] at heq
    rw [← heq]; exact hJ
  | cons st rest ih =>
    intro s s1 hJ heq
    simp only [SeekColor.handoffRun] at heq
    cases hstep : SeekColor.handoffStep s st with
    | none => rw [hstep] at heq; exact absurd heq (by simp)
    | some s2 =>
      rw [hstep] at heq
      exact ih s2 s1 (handoffStep_closed_before_new s s2 st hJ hstep) heq

/-- C8 (amended): in every execution of the `seekColor` hand-off, the handler
has already signalled the running seeker to stop — `close(stopChan)` inside
`activeSeeker.Stop()` — before the new seeker writes its first drive frame
(first conjunct); but stopping is only a signal, not a join: there is an
execution in which the old seeker's loop writes a further drive frame to the
transport after the new seeker's first drive (second conjunct), so the old
sampling loop need not have exited before the new controller drives. -/
theorem seekColor_handoff_behavior :
    (∀ (tr : List SeekColor.HandoffStep) (s : SeekColor.HandoffState),
       SeekColor.handoffRun SeekColor.handoffInit tr = some s →
       (∃ w ∈ s.log, w.writer = SeekColor.Writer.newSeeker) →
       s.stopClosed = true) ∧
    (∃ (tr : List SeekColor.HandoffStep) (s : SeekColor.HandoffState),
       SeekColor.handoffRun SeekColor.handoffInit tr = some s ∧
       s.log = [⟨SeekColor.Writer.handler, 0, 0⟩,
                ⟨SeekColor.Writer.newSeeker, 100, -1⟩,
                ⟨SeekColor.Writer.oldSeeker, 100, -1⟩]) := by
  constructor
  · intro tr s hrun hnew
    rcases hnew with ⟨w, hw, hwriter⟩
    cases hsc : s.stopClosed with
    | true => rfl
    | false =>
      have hJ := handoffRun_closed_before_new tr SeekColor.handoffInit s
        (fun _ => ⟨rfl, by simp [SeekColor.handoffInit]⟩) hrun
      exact absurd hwriter ((hJ hsc).2 w hw)
  · refine ⟨[SeekColor.HandoffStep.oldTickFire,
            SeekColor.HandoffStep.handlerCloseStop,
            SeekColor.HandoffStep.handlerHaltMotors,
            SeekColor.HandoffStep.newSeekerFirstDrive,
            SeekColor.HandoffStep.oldIssueDrive],
          ⟨SeekColor.LoopPc.atSelect, true, 3,
            [⟨SeekColor.Writer.handler, 0, 0⟩,
             ⟨SeekColor.Writer.newSeeker, 100, -1⟩,
             ⟨SeekColor.Writer.oldSeeker, 100, -1⟩]⟩,
          ?_, rfl⟩
    decide

/-- C8 witness: on the interleaving where the handler runs to completion
first, the final state has the new seeker's write in the log and the old
seeker's stop channel closed, as the first conjunct of the theorem
requires. -/
theorem seekColor_handoff_behavior_witness :
    ∃ s : SeekColor.HandoffState,
      SeekColor.handoffRun SeekColor.handoffInit
          [SeekColor.HandoffStep.handlerCloseStop,
           SeekColor.HandoffStep.handlerHaltMotors,
           SeekColor.HandoffStep.newSeekerFirstDrive] = some s ∧
        s.stopClosed = true := by
  have h1 : SeekColor.handoffRun SeekColor.handoffInit
      [SeekColor.HandoffStep.handlerCloseStop,
       SeekColor.HandoffStep.handlerHaltMotors,
       SeekColor.HandoffStep.newSeekerFirstDrive]
      = some ⟨SeekColor.LoopPc.atSelect, true, 3,
          [⟨SeekColor.Writer.handler, 0, 0⟩,
           ⟨SeekColor.Writer.newSeeker, 100, -1⟩]⟩ := by decide
  refine ⟨_, h1, ?_⟩
  refine seekColor_handoff_behavior.1 _ _ h1 ⟨⟨SeekColor.Writer.newSeeker, 100, -1⟩, ?_, rfl⟩
  decide
